import Mathlib

/-!
Shallow embedding of the imlight layered DMX composition and addressing
engine (`src/imlight/fixture/__init__.py`, with the global show-layer
registry operations from `src/imlight/app.py` and the fixture profiles
from `src/imlight/fixture/generic.py`).

Modelling conventions:
* numpy `uint8` channel values are `Nat` constrained to `[0, 255]` by the
  write-time validation, exactly as in the source;
* Python `float` priorities and the `float32` intermediate array of
  `ActiveFixture.compose` are modelled as exact rationals `ℚ`.  Every
  concrete priority appearing in a theorem below (1, 1/2, 1/4, 0) is
  exactly representable in binary floating point, and every product taken
  there (`uint8` value times such a priority) is exact in `float32`, so
  the rational model agrees with the floating-point computation on all
  inputs used in the statements;
* `np.ndarray` becomes `List`; numpy's `astype(np.uint8)` applied to the
  clipped non-negative array truncates toward zero, i.e. takes the floor;
* Python dictionaries keyed by unique names (`FixtureProfile.channel_map`,
  `LayerManager._layers`) become association lists looked up with `find?`;
* raising an exception becomes returning an error value before any state
  was changed, mirroring the straight-line order of checks and mutations
  in the source.
-/

namespace Imlight

/-- The `ChannelType` enum (logical function of a channel). -/
inductive ChannelType where
  | INTENSITY
  | RED
  | GREEN
  | BLUE
  | INDIGO
  | LIME
  | WHITE
  | PAN
  | PAN_FINE
  | TILT
  | TILT_FINE
  | GOBO_WHEEL
  | COLOR_WHEEL
  | STROBE
  | ZOOM
  | FOCUS
  | FAN
  | CONTROL
deriving DecidableEq, Repr

/-- A `ValueMapping` maps a DMX value range to a meaningful name. -/
structure ValueMapping where
  dmx_range : Int × Int
  name : String
deriving DecidableEq, Repr

/-- A `ChannelDefinition` describes a single channel within a fixture's profile. -/
structure ChannelDefinition where
  name : String
  channel_type : ChannelType
  relative_offset : Nat
  default_value : Nat := 0
  value_mappings : Option (List ValueMapping) := none
deriving DecidableEq, Repr

/-- The `IconType` enum. -/
inductive IconType where
  | GENERIC
  | FRESNEL
  | SCOOP
  | SPOT
  | HOUSE
deriving DecidableEq, Repr

/-- A `FixtureProfile` is the immutable blueprint for a type of fixture. -/
structure FixtureProfile where
  manufacturer : String
  model : String
  channels : List ChannelDefinition
  icon_type : IconType := IconType.GENERIC
deriving DecidableEq, Repr

/-- Model of `FixtureProfile.channel_count`, set in `__post_init__` as
`len(self.channels)`. -/
def FixtureProfile.channel_count (p : FixtureProfile) : Nat :=
  p.channels.length

/-- Model of the `FixtureProfile.channel_map` lookup: the dict `{ch.name: ch}` built in
`__post_init__`.  Channel names are unique within a profile, so first
match equals the dict entry. -/
def FixtureProfile.channelMap (p : FixtureProfile) (name : String) :
    Option ChannelDefinition :=
  p.channels.find? (fun ch => ch.name = name)

/-- A `ShowLayer` holds a global layer's properties (name and float priority),
held in the `App.layers` registry. -/
structure ShowLayer where
  name : String
  priority : ℚ
deriving DecidableEq, Repr

/-- Model of `App.get_show_layer`: linear search of the registry by name. -/
def get_show_layer (registry : List ShowLayer) (name : String) :
    Option ShowLayer :=
  registry.find? (fun layer => layer.name = name)

/-- A `Layer` is one layer of DMX values for one fixture.  `dmx_values` is the
`np.zeros(channel_count, dtype=np.uint8)` array; entries are bytes in
`[0, 255]`. -/
structure Layer where
  name : String
  dmx_values : List Nat
deriving DecidableEq, Repr

/-- A zero-valued layer, as built by `Layer.__init__`. -/
def Layer.mk0 (name : String) (p : FixtureProfile) : Layer :=
  { name := name, dmx_values := List.replicate p.channel_count 0 }

/-- One pass of the `compose` loop body for a single layer: modulate the
layer by its global priority and take the elementwise maximum with the
accumulator (`np.maximum(composed_values, modulated_values, out=...)`).
A layer whose name has no global `ShowLayer` is skipped (`continue`), as
is one whose priority is not `> 0`. -/
def composeStep (registry : List ShowLayer) (acc : List ℚ) (layer : Layer) :
    List ℚ :=
  match get_show_layer registry layer.name with
  | none => acc
  | some show_layer =>
    if show_layer.priority > 0 then
      List.zipWith max acc
        (layer.dmx_values.map (fun (v : Nat) => (v : ℚ) * show_layer.priority))
    else acc

/-- The final store of `compose`: `np.clip(q, 0, 255)` followed by
`astype(np.uint8)`, which truncates the clipped value toward zero. -/
def clipStore (q : ℚ) : Nat :=
  (Int.floor (max 0 (min q 255))).toNat

/-- Model of `ActiveFixture.compose`: HTP merge of all layers, each modulated by
its global priority, starting from a `float32` zero array, then clipped
to `[0, 255]` and stored back into the `uint8` output array. -/
def compose (registry : List ShowLayer) (p : FixtureProfile)
    (layers : List Layer) : List Nat :=
  (layers.foldl (composeStep registry)
      (List.replicate p.channel_count (0 : ℚ))).map clipStore

/-- The `RGB_PAR` profile from `generic.py`. -/
def RGB_PAR : FixtureProfile :=
  { manufacturer := "Generic"
    model := "RGB PAR"
    channels :=
      [ { name := "red", channel_type := ChannelType.RED,
          relative_offset := 0 }
      , { name := "green", channel_type := ChannelType.GREEN,
          relative_offset := 1 }
      , { name := "blue", channel_type := ChannelType.BLUE,
          relative_offset := 2 } ] }

/-- Model of `make_dimmer` from `generic.py`. -/
def make_dimmer (name : String) : FixtureProfile :=
  { manufacturer := "Generic"
    model := name
    channels :=
      [ { name := "intensity", channel_type := ChannelType.INTENSITY,
          relative_offset := 0 } ] }

/-- Outcome of `Layer.__setattr__`.  The source raises `ValueError` for an
out-of-range value on a known channel; for a name that is not in the
profile's channel map it falls through to `super().__setattr__`, i.e. an
ordinary Python attribute assignment that does not touch `dmx_values` and
does not recompose. -/
inductive SetOutcome where
  | stored
  | outOfRangeError
  | attrSet
deriving DecidableEq, Repr

/-- Model of `Layer.__setattr__` on a fully constructed layer (`"_profile" in
self.__dict__` holds after `__init__`): if the attribute name is a channel
of the profile, validate the value and store it at the channel's relative
offset; otherwise perform a plain attribute assignment. -/
def Layer.setattr (p : FixtureProfile) (l : Layer) (name : String)
    (v : Int) : Layer × SetOutcome :=
  match p.channelMap name with
  | some ch_def =>
    if 0 ≤ v ∧ v ≤ 255 then
      ({ l with dmx_values := l.dmx_values.set ch_def.relative_offset v.toNat },
        SetOutcome.stored)
    else (l, SetOutcome.outOfRangeError)
  | none => (l, SetOutcome.attrSet)

/-- An `ActiveFixture` is a patched fixture instance.  `layers` models the
`LayerManager`'s ordered dict as an association list with unique names;
`final_dmx_values` is the cached composed output array. -/
structure ActiveFixture where
  profile : FixtureProfile
  start_address : Int
  layers : List Layer
  final_dmx_values : List Nat
  name : String
  stagepos : ℚ × ℚ
deriving DecidableEq, Repr

/-- Model of `ActiveFixture.__init__`: validates that the fixture fits in the DMX
universe at this address, seeds one zero-valued layer per global
`ShowLayer`, and composes the initial output. -/
def mkActiveFixture (registry : List ShowLayer) (profile : FixtureProfile)
    (start_address : Int) (name : Option String)
    (start_stagepos : Option (ℚ × ℚ)) : Except String ActiveFixture :=
  if 1 ≤ start_address ∧
      start_address ≤ 512 - (profile.channel_count : Int) + 1 then
    let seeded := registry.map (fun show_layer => Layer.mk0 show_layer.name profile)
    Except.ok
      { profile := profile
        start_address := start_address
        layers := seeded
        final_dmx_values := compose registry profile seeded
        name := name.getD profile.model
        stagepos := start_stagepos.getD (1/20, 1/20) }
  else Except.error "Fixture does not fit in DMX universe at this address."

/-- Model of `LayerManager.__getitem__`'s per-fixture part: return the existing
layer list, or append a fresh zero-valued layer.  (The global
`add_show_layer` side effect is modelled on `AppState` below.) -/
def getOrCreateLayer (p : FixtureProfile) (layers : List Layer)
    (name : String) : List Layer :=
  if layers.any (fun l => l.name = name) then layers
  else layers ++ [Layer.mk0 name p]

/-- The user-level write `fixture.layers[layer_name].<ch_name> = value`:
look up (vivifying locally if needed) the layer, run `Layer.__setattr__`
on it, and on a successful channel store run the owner's synchronous
`compose()`.  On `ValueError` nothing was mutated; on a plain attribute
assignment `dmx_values` is untouched and no recomposition happens. -/
def writeChannel (registry : List ShowLayer) (fx : ActiveFixture)
    (layerName chName : String) (v : Int) : ActiveFixture × SetOutcome :=
  let layers0 := getOrCreateLayer fx.profile fx.layers layerName
  match fx.profile.channelMap chName with
  | none => ({ fx with layers := layers0 }, SetOutcome.attrSet)
  | some ch_def =>
    if 0 ≤ v ∧ v ≤ 255 then
      let layers1 := layers0.map (fun l =>
        if l.name = layerName then
          { l with dmx_values := l.dmx_values.set ch_def.relative_offset v.toNat }
        else l)
      ({ fx with
          layers := layers1
          final_dmx_values := compose registry fx.profile layers1 },
        SetOutcome.stored)
    else ({ fx with layers := layers0 }, SetOutcome.outOfRangeError)

/-- Model of `ActiveFixture.__getattr__`: read the final composed value of a named
channel (`none` models the `AttributeError` branch). -/
def ActiveFixture.getattrChannel (fx : ActiveFixture) (name : String) :
    Option Nat :=
  match fx.profile.channelMap name with
  | some ch_def => some (fx.final_dmx_values.getD ch_def.relative_offset 0)
  | none => none

/-- The priority slider in the layers window: `show_layer.priority =
new_priority` on the registry entry with the given name. -/
def setShowLayerPriority (registry : List ShowLayer) (name : String)
    (priority : ℚ) : List ShowLayer :=
  registry.map (fun sl =>
    if sl.name = name then { sl with priority := priority } else sl)

/-- A `DMXUniverse` holds the list of patched fixtures (the driver and the frame
buffer are not part of the addressing state). -/
structure DMXUniverse where
  fixtures : List ActiveFixture
deriving DecidableEq, Repr

/-- Errors of `DMXUniverse.add_fixture`: the range exceeds 512, or it
overlaps an existing fixture (the error carries the conflicting
fixture, as the source's message names its model and address). -/
inductive AddFixtureError where
  | overflow
  | conflict (existing : ActiveFixture)
deriving DecidableEq, Repr

/-- End of a fixture's occupied range: `start_address + channel_count - 1`. -/
def fixtureEnd (fx : ActiveFixture) : Int :=
  fx.start_address + fx.profile.channel_count - 1

/-- Model of `DMXUniverse.add_fixture`: reject a range past 512, then scan the
existing fixtures for an interval intersection
(`new_start <= existing_end and new_end >= existing_start`), raising on
the first conflict; only then append and re-sort by start address. -/
def DMXUniverse.add_fixture (u : DMXUniverse) (fixture : ActiveFixture) :
    Except AddFixtureError DMXUniverse :=
  if fixtureEnd fixture > 512 then Except.error AddFixtureError.overflow
  else
    match u.fixtures.find? (fun existing =>
        fixture.start_address ≤ fixtureEnd existing ∧
        fixtureEnd fixture ≥ existing.start_address) with
    | some existing => Except.error (AddFixtureError.conflict existing)
    | none =>
      Except.ok
        ⟨(u.fixtures ++ [fixture]).mergeSort
          (fun a b => a.start_address ≤ b.start_address)⟩

/-- Model of `DMXUniverse.remove_fixture`: Python `list.remove` removes the first equal
element and raises `ValueError` when absent. -/
def DMXUniverse.remove_fixture (u : DMXUniverse) (fixture : ActiveFixture) :
    Except String DMXUniverse :=
  if fixture ∈ u.fixtures then Except.ok ⟨u.fixtures.erase fixture⟩
  else Except.error "list.remove(x): x not in list"

/-- The slice assignment `frame[start:start+len(vals)] = vals`. -/
def writeSlice (frame : List Nat) (start : Nat) (vals : List Nat) :
    List Nat :=
  frame.enum.map (fun pr =>
    if start ≤ pr.1 ∧ pr.1 < start + vals.length then vals.getD (pr.1 - start) 0
    else pr.2)

/-- One iteration of the render loop: copy one fixture's cached composed
values into the frame at `start = fixture.start_address - 1`. -/
def renderStep (frame : List Nat) (fixture : ActiveFixture) : List Nat :=
  writeSlice frame (fixture.start_address - 1).toNat fixture.final_dmx_values

/-- Model of `DMXUniverse.render`: zero-fill the 512-byte frame, then copy each
fixture's cached composed values to
`[start_address-1, start_address-1+channel_count)`. -/
def DMXUniverse.render (u : DMXUniverse) : List Nat :=
  u.fixtures.foldl renderStep (List.replicate 512 0)

/-- The show-wide state relevant to the layer registry: the global
`App.layers` list and the patched universes. -/
structure AppState where
  layers : List ShowLayer
  universes : List DMXUniverse
deriving DecidableEq, Repr

/-- The four default show layers built in `App.__init__`. -/
def defaultShowLayers : List ShowLayer :=
  [⟨"manual", 1⟩, ⟨"effects", 1⟩, ⟨"scriptedCues", 1⟩, ⟨"cues", 1⟩]

/-- Model of `App.add_show_layer`: no-op when a `ShowLayer` of this name already
exists; otherwise append it to the registry and push a zero-valued layer
of this name onto every patched fixture that does not already have one. -/
def AppState.add_show_layer (s : AppState) (name : String) (priority : ℚ) :
    AppState :=
  if (get_show_layer s.layers name).isSome then s
  else
    { layers := s.layers ++ [⟨name, priority⟩]
      universes := s.universes.map (fun u =>
        ⟨u.fixtures.map (fun fx =>
          if fx.layers.any (fun l => l.name = name) then fx
          else { fx with layers := fx.layers ++ [Layer.mk0 name fx.profile] })⟩) }

/-- Model of `LayerManager.__getitem__` on the fixture at position `fi` of universe
`ui`: return the existing layer, or create a zero-valued one on this
fixture and then call `App.add_show_layer` (default priority 1.0), which
fans the new layer out to every other patched fixture. -/
def AppState.getLayerAt (s : AppState) (ui fi : Nat) (n : String) :
    Option Layer × AppState :=
  match (s.universes.get? ui).bind (fun u => u.fixtures.get? fi) with
  | none => (none, s)
  | some fx =>
    if fx.layers.any (fun l => l.name = n) then
      (fx.layers.find? (fun l => l.name = n), s)
    else
      let fx1 := { fx with layers := fx.layers ++ [Layer.mk0 n fx.profile] }
      let s1 : AppState :=
        { s with universes :=
            s.universes.set ui ⟨(s.universes.getD ui ⟨[]⟩).fixtures.set fi fx1⟩ }
      (some (Layer.mk0 n fx.profile), s1.add_show_layer n 1)

/-- Spec-side integer clamp to `[0, 255]`. -/
def clampInt (z : Int) : Int := max 0 (min z 255)

/-- The spec's store policy for claim comparison: round to the nearest
integer, then clamp to `[0, 255]`. -/
def specRoundStore (q : ℚ) : Int := clampInt (round q)

/-- Truncation store: take the floor, then clamp to `[0, 255]`. -/
def specTruncStore (q : ℚ) : Int := clampInt (Int.floor q)

/-- Scalar HTP step at one channel: how one layer updates the running
maximum `m` for channel `i`. -/
def composeStepAt (registry : List ShowLayer) (i : Nat) (m : ℚ)
    (l : Layer) : ℚ :=
  match get_show_layer registry l.name with
  | none => m
  | some sl =>
    if sl.priority > 0 then max m ((l.dmx_values.getD i 0 : ℚ) * sl.priority)
    else m

/-- The priority-modulated maximum of all contributing layers at channel
`i`: the scalar, per-channel reading of the spec's HTP merge (layers with
no global `ShowLayer` or with priority `<= 0` contribute nothing). -/
def specModulatedMax (registry : List ShowLayer) (layers : List Layer)
    (i : Nat) : ℚ :=
  layers.foldl (composeStepAt registry i) 0

/-- A fixture's range lies inside `[1, 512]`. -/
def okRange (fx : ActiveFixture) : Prop :=
  1 ≤ fx.start_address ∧ fixtureEnd fx ≤ 512

/-- Interval intersection of two fixtures' occupied ranges, exactly the
test `add_fixture` performs. -/
def overlap (a b : ActiveFixture) : Prop :=
  a.start_address ≤ fixtureEnd b ∧ fixtureEnd a ≥ b.start_address

/-- The universe invariant: every fixture in bounds, and all pairs of
fixtures non-overlapping. -/
def univOK (u : DMXUniverse) : Prop :=
  (∀ fx ∈ u.fixtures, okRange fx) ∧
    u.fixtures.Pairwise (fun a b => ¬ overlap a b)

/-- A patch-window operation on one universe: construct an
`ActiveFixture` from a profile and address and add it, or remove a
fixture. -/
inductive PatchOp where
  | patch (profile : FixtureProfile) (addr : Int)
  | unpatch (fixture : ActiveFixture)

/-- Apply one operation; a validation error (from the `ActiveFixture`
constructor or from `add_fixture`/`remove_fixture`) is reported to the
user and leaves the universe unchanged. -/
def applyPatchOp (registry : List ShowLayer) (u : DMXUniverse) :
    PatchOp → DMXUniverse
  | PatchOp.patch p a =>
    match mkActiveFixture registry p a none none with
    | Except.error _ => u
    | Except.ok fx =>
      match u.add_fixture fx with
      | Except.error _ => u
      | Except.ok u1 => u1
  | PatchOp.unpatch fx =>
    match u.remove_fixture fx with
    | Except.error _ => u
    | Except.ok u1 => u1

/-- Apply a sequence of patch operations to an initially empty universe. -/
def applyPatchOps (registry : List ShowLayer) (ops : List PatchOp) :
    DMXUniverse :=
  ops.foldl (applyPatchOp registry) ⟨[]⟩

/-- A 512-channel profile, for the bounds scenario. -/
def profile512 : FixtureProfile :=
  { manufacturer := "Test"
    model := "Full Universe"
    channels := (List.range 512).map (fun i =>
      { name := "ch" ++ toString i
        channel_type := ChannelType.CONTROL
        relative_offset := i }) }

/-- Frame position `i` (0-based) falls inside the fixture's copied range
`[start_address-1, start_address-1+channel_count)`. -/
def covers (fx : ActiveFixture) (i : Nat) : Prop :=
  fx.start_address ≤ (i : Int) + 1 ∧ (i : Int) + 1 ≤ fixtureEnd fx

/-- The fixture at position `fi` of universe `ui`. -/
def AppState.fixtureAt (s : AppState) (ui fi : Nat) : Option ActiveFixture :=
  (s.universes.get? ui).bind (fun u => u.fixtures.get? fi)

/-- No patched fixture holds a layer whose name is missing from the
global registry (the state deletion-cascading maintains). -/
def AppState.noDangling (s : AppState) : Prop :=
  ∀ u ∈ s.universes, ∀ g ∈ u.fixtures, ∀ l ∈ g.layers,
    (get_show_layer s.layers l.name).isSome

theorem zipWith_max_getD (a b : List ℚ) (i : Nat) (ha : i < a.length)
    (hb : i < b.length) :
    (List.zipWith max a b).getD i 0 = max (a.getD i 0) (b.getD i 0) := by
  simp [List.getD_eq_getElem?_getD, List.getElem?_zipWith,
    List.getElem?_eq_getElem ha, List.getElem?_eq_getElem hb]

theorem composeStep_length (registry : List ShowLayer) (acc : List ℚ)
    (l : Layer) (h : l.dmx_values.length = acc.length) :
    (composeStep registry acc l).length = acc.length := by
  unfold composeStep
  cases get_show_layer registry l.name with
  | none => rfl
  | some sl =>
    by_cases hp : sl.priority > 0
    · simp only [hp, if_true, List.length_zipWith, List.length_map, h,
        min_self]
    · simp [hp]

theorem composeStep_getD (registry : List ShowLayer) (acc : List ℚ)
    (l : Layer) (i : Nat) (hi : i < acc.length)
    (hlen : l.dmx_values.length = acc.length) :
    (composeStep registry acc l).getD i 0
      = composeStepAt registry i (acc.getD i 0) l := by
  unfold composeStep composeStepAt
  cases get_show_layer registry l.name with
  | none => rfl
  | some sl =>
    by_cases hp : sl.priority > 0
    · have hiv : i < l.dmx_values.length := by rw [hlen]; exact hi
      have hmap : (l.dmx_values.map (fun (v : Nat) => (v : ℚ) * sl.priority)).getD i 0
          = (l.dmx_values.getD i 0 : ℚ) * sl.priority := by
        rw [List.getD_eq_getElem?_getD, List.getElem?_map,
          List.getElem?_eq_getElem hiv]
        rw [List.getD_eq_getElem?_getD, List.getElem?_eq_getElem hiv]
        rfl
      simp only [hp, if_true]
      rw [zipWith_max_getD _ _ i hi
        (by rw [List.length_map]; exact hiv), hmap]
    · simp [hp]

theorem foldl_composeStep_length (registry : List ShowLayer)
    (layers : List Layer) :
    ∀ acc : List ℚ, (∀ l ∈ layers, l.dmx_values.length = acc.length) →
      (layers.foldl (composeStep registry) acc).length = acc.length := by
  induction layers with
  | nil => intro acc _; rfl
  | cons hd tl ih =>
    intro acc h
    have hhd := composeStep_length registry acc hd (h hd (by simp))
    rw [List.foldl_cons,
      ih _ (fun l hl => by rw [hhd]; exact h l (List.mem_cons_of_mem _ hl)),
      hhd]

theorem foldl_composeStep_getD (registry : List ShowLayer)
    (layers : List Layer) :
    ∀ (acc : List ℚ) (i : Nat), i < acc.length →
      (∀ l ∈ layers, l.dmx_values.length = acc.length) →
      (layers.foldl (composeStep registry) acc).getD i 0
        = layers.foldl (composeStepAt registry i) (acc.getD i 0) := by
  induction layers with
  | nil => intro _ _ _ _; rfl
  | cons hd tl ih =>
    intro acc i hi h
    have hhd := composeStep_length registry acc hd (h hd (by simp))
    rw [List.foldl_cons, List.foldl_cons,
      ← composeStep_getD registry acc hd i hi (h hd (by simp))]
    exact ih _ i (by rw [hhd]; exact hi)
      (fun l hl => by rw [hhd]; exact h l (List.mem_cons_of_mem _ hl))

theorem floor_clip (q : ℚ) :
    Int.floor (max 0 (min q 255)) = max 0 (min (Int.floor q) 255) := by
  rcases le_total q 0 with h0 | h0
  · have hq255 : q ≤ 255 := h0.trans (by norm_num)
    have hfl : Int.floor q ≤ 0 := by simpa using Int.floor_mono h0
    rw [min_eq_left hq255, max_eq_left h0,
      min_eq_left (hfl.trans (by norm_num)), max_eq_left hfl]
    simp
  · rcases le_total q 255 with h255 | h255
    · have hfl0 : (0 : Int) ≤ Int.floor q := Int.floor_nonneg.mpr h0
      have hfl255 : Int.floor q ≤ 255 := by
        simpa using Int.floor_mono h255
      rw [min_eq_left h255, max_eq_right h0, min_eq_left hfl255,
        max_eq_right hfl0]
    · have hfl : (255 : Int) ≤ Int.floor q := by
        simpa using Int.floor_mono h255
      rw [min_eq_right h255, min_eq_right hfl]
      norm_num

theorem clipStore_intCast (q : ℚ) :
    ((clipStore q : Nat) : Int) = specTruncStore q := by
  unfold clipStore specTruncStore clampInt
  rw [Int.toNat_of_nonneg (Int.floor_nonneg.mpr (le_max_left 0 _)),
    floor_clip]

theorem compose_length (registry : List ShowLayer) (p : FixtureProfile)
    (layers : List Layer)
    (hlen : ∀ l ∈ layers, l.dmx_values.length = p.channel_count) :
    (compose registry p layers).length = p.channel_count := by
  unfold compose
  rw [List.length_map, foldl_composeStep_length registry layers _
    (by simpa using hlen), List.length_replicate]

theorem compose_getD_int (registry : List ShowLayer) (p : FixtureProfile)
    (layers : List Layer)
    (hlen : ∀ l ∈ layers, l.dmx_values.length = p.channel_count)
    (i : Nat) (hi : i < p.channel_count) :
    (((compose registry p layers).getD i 0 : Nat) : Int)
      = specTruncStore (specModulatedMax registry layers i) := by
  unfold compose
  have hacc : i < (List.replicate p.channel_count (0 : ℚ)).length := by
    simpa using hi
  have hfoldlen : (layers.foldl (composeStep registry)
      (List.replicate p.channel_count (0 : ℚ))).length = p.channel_count := by
    rw [foldl_composeStep_length registry layers _ (by simpa using hlen)]
    simp
  have hmapD : ((layers.foldl (composeStep registry)
        (List.replicate p.channel_count (0 : ℚ))).map clipStore).getD i 0
      = clipStore ((layers.foldl (composeStep registry)
        (List.replicate p.channel_count (0 : ℚ))).getD i 0) := by
    rw [List.getD_eq_getElem?_getD, List.getElem?_map,
      List.getElem?_eq_getElem (by rw [hfoldlen]; exact hi)]
    simp [List.getD_eq_getElem?_getD,
      List.getElem?_eq_getElem (by rw [hfoldlen]; exact hi)]
  rw [hmapD, clipStore_intCast,
    foldl_composeStep_getD registry layers _ i hacc (by simpa using hlen)]
  simp [specModulatedMax]

theorem foldl_composeStepAt_ge (registry : List ShowLayer) (i : Nat)
    (layers : List Layer) :
    ∀ m : ℚ, m ≤ layers.foldl (composeStepAt registry i) m := by
  induction layers with
  | nil => intro m; exact le_refl m
  | cons hd tl ih =>
    intro m
    refine le_trans ?_ (ih (composeStepAt registry i m hd))
    unfold composeStepAt
    cases get_show_layer registry hd.name with
    | none => exact le_refl m
    | some sl =>
      by_cases hp : sl.priority > 0
      · simp [hp]
      · simp [hp]

theorem foldl_composeStepAt_le (registry : List ShowLayer) (i : Nat)
    (layers : List Layer) (V : ℚ)
    (hb : ∀ l ∈ layers, ∀ sl, get_show_layer registry l.name = some sl →
      sl.priority > 0 → (l.dmx_values.getD i 0 : ℚ) * sl.priority ≤ V) :
    ∀ m : ℚ, m ≤ V → layers.foldl (composeStepAt registry i) m ≤ V := by
  induction layers with
  | nil => intro m hm; exact hm
  | cons hd tl ih =>
    intro m hm
    rw [List.foldl_cons]
    refine ih (fun l hl => hb l (List.mem_cons_of_mem _ hl)) _ ?_
    unfold composeStepAt
    cases hsl : get_show_layer registry hd.name with
    | none => exact hm
    | some sl =>
      by_cases hp : sl.priority > 0
      · simp only [hp, if_true]
        exact max_le hm (hb hd (by simp) sl hsl hp)
      · simp [hp, hm]

theorem foldl_composeStepAt_mem_ge (registry : List ShowLayer) (i : Nat)
    (layers : List Layer) (l : Layer) (sl : ShowLayer)
    (hmem : l ∈ layers) (hsl : get_show_layer registry l.name = some sl)
    (hp : sl.priority > 0) :
    ∀ m : ℚ, (l.dmx_values.getD i 0 : ℚ) * sl.priority
      ≤ layers.foldl (composeStepAt registry i) m := by
  induction layers with
  | nil => cases hmem
  | cons hd tl ih =>
    intro m
    rw [List.foldl_cons]
    rcases List.mem_cons.mp hmem with heq | htl
    · subst heq
      refine le_trans ?_ (foldl_composeStepAt_ge registry i tl _)
      unfold composeStepAt
      rw [hsl]
      simp [hp]
    · exact ih htl _

theorem specModulatedMax_nonneg (registry : List ShowLayer)
    (layers : List Layer) (i : Nat) : 0 ≤ specModulatedMax registry layers i :=
  foldl_composeStepAt_ge registry i layers 0

theorem specModulatedMax_all_zero (registry : List ShowLayer)
    (layers : List Layer) (i : Nat)
    (h : ∀ l ∈ layers, l.dmx_values.getD i 0 = 0) :
    specModulatedMax registry layers i = 0 :=
  le_antisymm
    (foldl_composeStepAt_le registry i layers 0
      (fun l hl sl _ _ => by rw [h l hl]; simp) 0 le_rfl)
    (specModulatedMax_nonneg registry layers i)

theorem specTruncStore_zero : specTruncStore 0 = 0 := by
  unfold specTruncStore clampInt
  norm_num

theorem compose_all_zero (registry : List ShowLayer) (p : FixtureProfile)
    (layers : List Layer)
    (hz : ∀ l ∈ layers, l.dmx_values = List.replicate p.channel_count 0) :
    compose registry p layers = List.replicate p.channel_count 0 := by
  have hlen : ∀ l ∈ layers, l.dmx_values.length = p.channel_count :=
    fun l hl => by rw [hz l hl]; simp
  apply List.ext_getElem
  · rw [compose_length registry p layers hlen]; simp
  · intro n h1 h2
    have hn : n < p.channel_count := by
      simpa using h2
    have hint := compose_getD_int registry p layers hlen n hn
    rw [specModulatedMax_all_zero registry layers n
        (fun l hl => by rw [hz l hl]; simp),
      specTruncStore_zero] at hint
    have hx : (compose registry p layers).getD n 0 = 0 := by
      exact_mod_cast hint
    rw [List.getD_eq_getElem _ 0 h1] at hx
    rw [hx, List.getElem_replicate]

theorem writeSlice_length (frame : List Nat) (start : Nat)
    (vals : List Nat) :
    (writeSlice frame start vals).length = frame.length := by
  unfold writeSlice
  rw [List.length_map, List.enum_length]

theorem writeSlice_getElem? (frame : List Nat) (start : Nat)
    (vals : List Nat) (i : Nat) (hi : i < frame.length) :
    (writeSlice frame start vals)[i]? =
      some (if start ≤ i ∧ i < start + vals.length then vals.getD (i - start) 0
        else frame.getD i 0) := by
  unfold writeSlice
  rw [List.getElem?_map, List.getElem?_enum, List.getElem?_eq_getElem hi]
  simp [List.getD_eq_getElem?_getD, List.getElem?_eq_getElem hi]

theorem writeSlice_getD_in (frame : List Nat) (start : Nat)
    (vals : List Nat) (i : Nat) (hi : i < frame.length)
    (h1 : start ≤ i) (h2 : i < start + vals.length) :
    (writeSlice frame start vals).getD i 0 = vals.getD (i - start) 0 := by
  rw [List.getD_eq_getElem?_getD, writeSlice_getElem? frame start vals i hi]
  simp [h1, h2]

theorem writeSlice_getD_out (frame : List Nat) (start : Nat)
    (vals : List Nat) (i : Nat) (hi : i < frame.length)
    (h : ¬ (start ≤ i ∧ i < start + vals.length)) :
    (writeSlice frame start vals).getD i 0 = frame.getD i 0 := by
  rw [List.getD_eq_getElem?_getD, writeSlice_getElem? frame start vals i hi]
  simp only [Option.getD_some]
  rw [if_neg h]

theorem covers_iff_slice (fx : ActiveFixture) (i : Nat)
    (hok : 1 ≤ fx.start_address)
    (hlen : fx.final_dmx_values.length = fx.profile.channel_count) :
    covers fx i ↔ ((fx.start_address - 1).toNat ≤ i ∧
      i < (fx.start_address - 1).toNat + fx.final_dmx_values.length) := by
  unfold covers fixtureEnd
  rw [hlen]
  constructor <;> intro h <;> constructor <;> omega

theorem overlap_symm {a b : ActiveFixture} (h : overlap a b) : overlap b a := by
  unfold overlap fixtureEnd at h ⊢
  omega

theorem covers_covers_overlap {a b : ActiveFixture} {i : Nat}
    (ha : covers a i) (hb : covers b i) : overlap a b := by
  unfold covers fixtureEnd at ha hb
  unfold overlap fixtureEnd
  omega

theorem renderStep_length (frame : List Nat) (fx : ActiveFixture) :
    (renderStep frame fx).length = frame.length := by
  unfold renderStep
  exact writeSlice_length frame _ _

theorem foldl_renderStep_length (l : List ActiveFixture) :
    ∀ frame : List Nat, (l.foldl renderStep frame).length = frame.length := by
  induction l with
  | nil => intro frame; rfl
  | cons hd tl ih =>
    intro frame
    rw [List.foldl_cons, ih]
    exact writeSlice_length frame _ _

theorem foldl_renderStep_getD_out (l : List ActiveFixture) :
    ∀ (frame : List Nat) (i : Nat), i < frame.length →
      (∀ fx ∈ l, 1 ≤ fx.start_address ∧
        fx.final_dmx_values.length = fx.profile.channel_count) →
      (∀ fx ∈ l, ¬ covers fx i) →
      (l.foldl renderStep frame).getD i 0 = frame.getD i 0 := by
  induction l with
  | nil => intro frame i _ _ _; rfl
  | cons hd tl ih =>
    intro frame i hi hfx hnc
    have hhd := hfx hd (by simp)
    have hstep : (renderStep frame hd).getD i 0 = frame.getD i 0 := by
      unfold renderStep
      refine writeSlice_getD_out frame _ _ i hi ?_
      rw [← covers_iff_slice hd i hhd.1 hhd.2]
      exact hnc hd (by simp)
    rw [List.foldl_cons,
      ih (renderStep frame hd) i
        (by rw [renderStep_length]; exact hi)
        (fun fx hfx2 => hfx fx (List.mem_cons_of_mem _ hfx2))
        (fun fx hfx2 => hnc fx (List.mem_cons_of_mem _ hfx2)),
      hstep]

theorem foldl_renderStep_getD_in (l : List ActiveFixture) :
    ∀ (frame : List Nat) (fx : ActiveFixture) (j : Nat), fx ∈ l →
      j < fx.profile.channel_count → frame.length = 512 →
      (∀ g ∈ l, okRange g ∧
        g.final_dmx_values.length = g.profile.channel_count) →
      l.Pairwise (fun a b => ¬ overlap a b) →
      (l.foldl renderStep frame).getD ((fx.start_address - 1).toNat + j) 0
        = fx.final_dmx_values.getD j 0 := by
  induction l with
  | nil => intro _ _ _ hmem; cases hmem
  | cons hd tl ih =>
    intro frame fx j hmem hj hflen hg hpw
    have hfxok := hg fx hmem
    have hstart : 1 ≤ fx.start_address := hfxok.1.1
    have hcov : covers fx ((fx.start_address - 1).toNat + j) := by
      unfold covers fixtureEnd
      constructor <;> omega
    have hipos : (fx.start_address - 1).toNat + j < frame.length := by
      have hend := hfxok.1.2
      unfold fixtureEnd at hend
      omega
    rcases List.mem_cons.mp hmem with heq | htl
    · subst heq
      rw [List.foldl_cons]
      have hnc : ∀ g ∈ tl, ¬ covers g ((fx.start_address - 1).toNat + j) := by
        intro g hgtl hgc
        exact (List.pairwise_cons.mp hpw).1 g hgtl
          (covers_covers_overlap hcov hgc)
      rw [foldl_renderStep_getD_out tl (renderStep frame fx) _
        (by rw [renderStep_length]; exact hipos)
        (fun g hgtl => ⟨(hg g (List.mem_cons_of_mem _ hgtl)).1.1,
          (hg g (List.mem_cons_of_mem _ hgtl)).2⟩)
        hnc]
      unfold renderStep
      rw [writeSlice_getD_in frame _ _ _ hipos (by omega)
        (by rw [hfxok.2]; omega)]
      congr 1
      omega
    · rw [List.foldl_cons]
      exact ih (renderStep frame hd) fx j htl hj
        (by rw [renderStep_length]; exact hflen)
        (fun g hgtl => hg g (List.mem_cons_of_mem _ hgtl))
        (List.pairwise_cons.mp hpw).2

theorem writeSlice_replicate (n d : Nat) (vals : List Nat)
    (h : vals.length ≤ n) :
    writeSlice (List.replicate n d) 0 vals
      = vals ++ List.replicate (n - vals.length) d := by
  apply List.ext_getElem
  · rw [writeSlice_length]
    simp
    omega
  · intro i h1 h2
    have hin : i < n := by
      rw [writeSlice_length] at h1
      simpa using h1
    have hL : (writeSlice (List.replicate n d) 0 vals)[i]? =
        some (if 0 ≤ i ∧ i < 0 + vals.length then vals.getD (i - 0) 0
          else (List.replicate n d).getD i 0) :=
      writeSlice_getElem? _ 0 vals i (by simpa using hin)
    rw [List.getElem?_eq_getElem h1] at hL
    have hL2 := Option.some.inj hL
    rw [hL2]
    by_cases hc : i < vals.length
    · rw [if_pos (by omega)]
      rw [List.getElem_append_left hc]
      simp [List.getD_eq_getElem?_getD, List.getElem?_eq_getElem hc]
    · rw [if_neg (by omega)]
      rw [List.getElem_append_right (by omega)]
      rw [List.getElem_replicate,
        List.getD_eq_getElem _ _ (by simpa using hin),
        List.getElem_replicate]

theorem clipStore_natCast (v : Nat) (h : v ≤ 255) :
    clipStore ((v : ℚ)) = v := by
  unfold clipStore
  rw [min_eq_left (by exact_mod_cast h), max_eq_right (by positivity),
    Int.floor_natCast]
  simp

/-- Claim C3 (counterexample): assigning to a name that is not a channel
of the profile does not raise an unknown-channel error; `__setattr__`
falls through to a plain Python attribute assignment, silently storing
the value as an ordinary instance attribute and leaving `dmx_values`
untouched. -/
theorem unknown_channel_silent_cx :
    Layer.setattr RGB_PAR ⟨"manual", [0, 0, 0]⟩ "bogus" 7
      = (⟨"manual", [0, 0, 0]⟩, SetOutcome.attrSet) := by
  decide

/-- Claim C3 (amended): for every layer and every name not present in the
profile's channel map, the write does not raise; it is performed as an
ordinary attribute assignment on the `Layer` object, with the stored
channel values unchanged and no recomposition. -/
theorem unknown_channel_attrSet (p : FixtureProfile) (l : Layer)
    (name : String) (v : Int) (h : p.channelMap name = none) :
    Layer.setattr p l name v = (l, SetOutcome.attrSet) := by
  unfold Layer.setattr
  rw [h]

theorem unknown_channel_attrSet_witness :
    RGB_PAR.channelMap "shutter" = none ∧
      Layer.setattr RGB_PAR ⟨"fx", [1, 2, 3]⟩ "shutter" 42
        = (⟨"fx", [1, 2, 3]⟩, SetOutcome.attrSet) :=
  ⟨by decide, unknown_channel_attrSet RGB_PAR ⟨"fx", [1, 2, 3]⟩ "shutter" 42
    (by decide)⟩

/-- Claim C8: an out-of-range write to a known channel raises the
validation error before any mutation: the fixture (its layers and its
cached composed output) is returned exactly as it was, and no
recomposition runs. -/
theorem out_of_range_write_atomic (registry : List ShowLayer)
    (fx : ActiveFixture) (layerName chName : String) (v : Int)
    (ch : ChannelDefinition)
    (hch : fx.profile.channelMap chName = some ch)
    (hlayer : fx.layers.any (fun l => l.name = layerName))
    (hv : ¬ (0 ≤ v ∧ v ≤ 255)) :
    writeChannel registry fx layerName chName v
      = (fx, SetOutcome.outOfRangeError) := by
  unfold writeChannel getOrCreateLayer
  rw [if_pos hlayer, hch]
  simp only [if_neg hv]

theorem out_of_range_write_atomic_witness :
    RGB_PAR.channelMap "red"
        = some { name := "red", channel_type := ChannelType.RED,
                 relative_offset := 0 } ∧
      writeChannel defaultShowLayers
        ⟨RGB_PAR, 1, [⟨"manual", [0, 0, 0]⟩], [0, 0, 0], "RGB PAR",
          (1/20, 1/20)⟩ "manual" "red" 300
        = (⟨RGB_PAR, 1, [⟨"manual", [0, 0, 0]⟩], [0, 0, 0], "RGB PAR",
            (1/20, 1/20)⟩, SetOutcome.outOfRangeError) :=
  ⟨by decide,
    out_of_range_write_atomic defaultShowLayers
      ⟨RGB_PAR, 1, [⟨"manual", [0, 0, 0]⟩], [0, 0, 0], "RGB PAR",
        (1/20, 1/20)⟩ "manual" "red" 300
      { name := "red", channel_type := ChannelType.RED,
        relative_offset := 0 }
      (by decide) (by decide) (by decide)⟩

/-- Claim C10: a freshly constructed `ActiveFixture` carries one
zero-valued layer per `ShowLayer` in the global registry (its layer-name
list equals the registry's name list), and its initial composed output is
all zeros of length `profile.channel_count`. -/
theorem mk_fixture_seeded (registry : List ShowLayer) (p : FixtureProfile)
    (a : Int) (nm : Option String) (sp : Option (ℚ × ℚ))
    (fx : ActiveFixture)
    (h : mkActiveFixture registry p a nm sp = Except.ok fx) :
    fx.layers.map Layer.name = registry.map ShowLayer.name ∧
      (∀ l ∈ fx.layers, l.dmx_values = List.replicate p.channel_count 0) ∧
      fx.final_dmx_values = List.replicate p.channel_count 0 ∧
      fx.final_dmx_values.length = p.channel_count := by
  unfold mkActiveFixture at h
  by_cases hc : 1 ≤ a ∧ a ≤ 512 - (p.channel_count : Int) + 1
  · rw [if_pos hc] at h
    have hfx := (Except.ok.inj h).symm
    subst hfx
    refine ⟨?_, ?_, ?_, ?_⟩
    · simp [Layer.mk0]
    · intro l hl
      rcases List.mem_map.mp hl with ⟨sl, _, hsl⟩
      rw [← hsl]
      rfl
    · exact compose_all_zero registry p _ (fun l hl => by
        rcases List.mem_map.mp hl with ⟨sl, _, hsl⟩
        rw [← hsl]
        rfl)
    · rw [compose_all_zero registry p _ (fun l hl => by
        rcases List.mem_map.mp hl with ⟨sl, _, hsl⟩
        rw [← hsl]
        rfl)]
      simp
  · rw [if_neg hc] at h
    cases h

theorem mk_fixture_seeded_witness :
    ∃ fx, mkActiveFixture defaultShowLayers RGB_PAR 1 none none
        = Except.ok fx ∧
      fx.layers.map Layer.name = ["manual", "effects", "scriptedCues", "cues"] ∧
      fx.final_dmx_values = [0, 0, 0] := by
  have hok : mkActiveFixture defaultShowLayers RGB_PAR 1 none none
      = Except.ok
        { profile := RGB_PAR
          start_address := 1
          layers := defaultShowLayers.map
            (fun show_layer => Layer.mk0 show_layer.name RGB_PAR)
          final_dmx_values := compose defaultShowLayers RGB_PAR
            (defaultShowLayers.map
              (fun show_layer => Layer.mk0 show_layer.name RGB_PAR))
          name := "RGB PAR"
          stagepos := (1/20, 1/20) } := by
    unfold mkActiveFixture
    rw [if_pos (by decide)]
    rfl
  refine ⟨_, hok, ?_, ?_⟩
  · rw [(mk_fixture_seeded defaultShowLayers RGB_PAR 1 none none _ hok).1]
    decide
  · rw [(mk_fixture_seeded defaultShowLayers RGB_PAR 1 none none _ hok).2.2.1]
    decide

theorem add_fixture_overflow (u : DMXUniverse) (fx : ActiveFixture)
    (h : fixtureEnd fx > 512) :
    u.add_fixture fx = Except.error AddFixtureError.overflow := by
  unfold DMXUniverse.add_fixture
  rw [if_pos h]

theorem add_fixture_conflict (u : DMXUniverse) (fx g : ActiveFixture)
    (h : u.add_fixture fx = Except.error (AddFixtureError.conflict g)) :
    g ∈ u.fixtures ∧ overlap fx g := by
  unfold DMXUniverse.add_fixture at h
  split at h
  · cases h
  · split at h
    next g2 hfind =>
      have hg : g2 = g := by
        have := Except.error.inj h
        cases this
        rfl
      subst hg
      refine ⟨List.mem_of_find?_eq_some hfind, ?_⟩
      have := List.find?_some hfind
      simpa [overlap] using this
    next hfind => cases h

theorem add_fixture_ok (u : DMXUniverse) (fx : ActiveFixture)
    (u1 : DMXUniverse) (h : u.add_fixture fx = Except.ok u1) :
    fixtureEnd fx ≤ 512 ∧ (∀ g ∈ u.fixtures, ¬ overlap fx g) ∧
      u1.fixtures.Perm (u.fixtures ++ [fx]) := by
  unfold DMXUniverse.add_fixture at h
  split at h
  · cases h
  next hof =>
    split at h
    next g2 hfind => cases h
    next hfind =>
      have hperm : u1.fixtures.Perm (u.fixtures ++ [fx]) := by
        have hinj := Except.ok.inj h
        rw [← hinj]
        exact List.mergeSort_perm (u.fixtures ++ [fx]) _
      refine ⟨by omega, ?_, hperm⟩
      intro g hg
      have := List.find?_eq_none.mp hfind g hg
      simpa [overlap] using this

theorem univOK_empty : univOK ⟨[]⟩ := by
  constructor
  · intro fx h
    cases h
  · exact List.Pairwise.nil

theorem univOK_add (u : DMXUniverse) (fx : ActiveFixture)
    (u1 : DMXUniverse) (hu : univOK u) (hstart : 1 ≤ fx.start_address)
    (h : u.add_fixture fx = Except.ok u1) : univOK u1 := by
  obtain ⟨hend, hnool, hperm⟩ := add_fixture_ok u fx u1 h
  constructor
  · intro g hg
    rcases List.mem_append.mp (hperm.mem_iff.mp hg) with hgo | hgf
    · exact hu.1 g hgo
    · rcases List.mem_singleton.mp hgf with rfl
      exact ⟨hstart, hend⟩
  · have hsymm : ∀ {x y : ActiveFixture},
        (fun a b => ¬ overlap a b) x y → (fun a b => ¬ overlap a b) y x :=
      fun hxy hov => hxy (overlap_symm hov)
    rw [List.Perm.pairwise_iff hsymm hperm]
    rw [List.pairwise_append]
    refine ⟨hu.2, by simp, ?_⟩
    intro a ha b hb
    rcases List.mem_singleton.mp hb with rfl
    intro hov
    exact hnool a ha (overlap_symm hov)

theorem univOK_erase (u : DMXUniverse) (fx : ActiveFixture)
    (hu : univOK u) : univOK ⟨u.fixtures.erase fx⟩ := by
  constructor
  · intro g hg
    exact hu.1 g ((List.erase_sublist fx u.fixtures).mem hg)
  · exact List.Pairwise.sublist (List.erase_sublist fx u.fixtures) hu.2

theorem mkActiveFixture_start (registry : List ShowLayer)
    (p : FixtureProfile) (a : Int) (nm : Option String)
    (sp : Option (ℚ × ℚ)) (fx : ActiveFixture)
    (h : mkActiveFixture registry p a nm sp = Except.ok fx) :
    fx.start_address = a ∧ 1 ≤ a ∧
      a ≤ 512 - (p.channel_count : Int) + 1 ∧ fx.profile = p := by
  unfold mkActiveFixture at h
  split at h
  next hc =>
    have hfx := (Except.ok.inj h).symm
    subst hfx
    exact ⟨rfl, hc.1, hc.2, rfl⟩
  · cases h

theorem univOK_applyPatchOp (registry : List ShowLayer) (u : DMXUniverse)
    (op : PatchOp) (hu : univOK u) :
    univOK (applyPatchOp registry u op) := by
  cases op with
  | patch p a =>
    simp only [applyPatchOp]
    split
    · exact hu
    next fx hmk =>
      split
      · exact hu
      next u1 hadd =>
        obtain ⟨hstart, h1a, _, _⟩ :=
          mkActiveFixture_start registry p a none none fx hmk
        exact univOK_add u fx u1 hu (by omega) hadd
  | unpatch fx =>
    simp only [applyPatchOp, DMXUniverse.remove_fixture]
    by_cases hmem : fx ∈ u.fixtures
    · rw [if_pos hmem]
      exact univOK_erase u fx hu
    · rw [if_neg hmem]
      exact hu

theorem univOK_applyPatchOps (registry : List ShowLayer)
    (ops : List PatchOp) : univOK (applyPatchOps registry ops) := by
  unfold applyPatchOps
  suffices hgen : ∀ (u : DMXUniverse), univOK u →
      univOK (ops.foldl (applyPatchOp registry) u) by
    exact hgen ⟨[]⟩ univOK_empty
  induction ops with
  | nil => intro u hu; exact hu
  | cons hd tl ih =>
    intro u hu
    rw [List.foldl_cons]
    exact ih _ (univOK_applyPatchOp registry u hd hu)

/-- Claim C2: with layer A at all channels 100 and global priority 1.0
and layer B at all channels 200 and global priority 0.5, every composed
channel equals `max(100*1.0, 200*0.5) = 100`; after raising B's global
priority to 1.0 and recomposing, every composed channel equals 200. -/
theorem compose_two_layer_priority (p : FixtureProfile) :
    compose [⟨"A", 1⟩, ⟨"B", 1/2⟩] p
        [⟨"A", List.replicate p.channel_count 100⟩,
         ⟨"B", List.replicate p.channel_count 200⟩]
      = List.replicate p.channel_count 100 ∧
    compose (setShowLayerPriority [⟨"A", 1⟩, ⟨"B", 1/2⟩] "B" 1) p
        [⟨"A", List.replicate p.channel_count 100⟩,
         ⟨"B", List.replicate p.channel_count 200⟩]
      = List.replicate p.channel_count 200 := by
  have hset : setShowLayerPriority [⟨"A", 1⟩, ⟨"B", 1/2⟩] "B" 1
      = [⟨"A", 1⟩, ⟨"B", 1⟩] := by
    unfold setShowLayerPriority
    simp
  rw [hset]
  have hstep : ∀ (regB : ℚ) (acc v : ℚ),
      composeStep [⟨"A", (1 : ℚ)⟩, ⟨"B", regB⟩] (List.replicate p.channel_count acc)
          ⟨"A", List.replicate p.channel_count 100⟩
        = List.replicate p.channel_count (max acc ((100 : ℚ) * 1)) := by
    intro regB acc v
    unfold composeStep
    rw [show get_show_layer [⟨"A", (1 : ℚ)⟩, ⟨"B", regB⟩] "A"
        = some ⟨"A", 1⟩ from rfl]
    norm_num [List.zipWith_replicate, List.map_replicate]
  have hstepB : ∀ (regB : ℚ) (acc : ℚ), regB > 0 →
      composeStep [⟨"A", (1 : ℚ)⟩, ⟨"B", regB⟩] (List.replicate p.channel_count acc)
          ⟨"B", List.replicate p.channel_count 200⟩
        = List.replicate p.channel_count (max acc ((200 : ℚ) * regB)) := by
    intro regB acc hregB
    unfold composeStep
    rw [show get_show_layer [⟨"A", (1 : ℚ)⟩, ⟨"B", regB⟩] "B"
        = some ⟨"B", regB⟩ from rfl]
    simp only [hregB, if_true]
    rw [List.map_replicate, List.zipWith_replicate]
    simp
  constructor
  · unfold compose
    rw [List.foldl_cons, List.foldl_cons, List.foldl_nil,
      hstep (1/2) 0 0, hstepB (1/2) _ (by norm_num)]
    norm_num
    exact Or.inr (clipStore_natCast 100 (by norm_num))
  · unfold compose
    rw [List.foldl_cons, List.foldl_cons, List.foldl_nil,
      hstep 1 0 0, hstepB 1 _ (by norm_num)]
    norm_num
    exact Or.inr (clipStore_natCast 200 (by norm_num))

/-- Claim C4: all reachable universes satisfy the address invariant
(ranges pairwise disjoint inside `[1, 512]`); an over-512 range is
rejected as overflow; a conflict error identifies an existing,
genuinely-overlapping fixture; a failed patch leaves the universe
unchanged; and a 512-channel profile patches at address 1 but not at
address 2. -/
theorem patch_invariants (registry : List ShowLayer) :
    (∀ ops : List PatchOp, univOK (applyPatchOps registry ops)) ∧
    (∀ (u : DMXUniverse) (fx : ActiveFixture), fixtureEnd fx > 512 →
      u.add_fixture fx = Except.error AddFixtureError.overflow) ∧
    (∀ (u : DMXUniverse) (fx g : ActiveFixture),
      u.add_fixture fx = Except.error (AddFixtureError.conflict g) →
      g ∈ u.fixtures ∧ overlap fx g) ∧
    (∀ (u : DMXUniverse) (p : FixtureProfile) (a : Int)
        (fx : ActiveFixture) (e : AddFixtureError),
      mkActiveFixture registry p a none none = Except.ok fx →
      u.add_fixture fx = Except.error e →
      applyPatchOp registry u (PatchOp.patch p a) = u) ∧
    (∃ fx, mkActiveFixture registry profile512 1 none none = Except.ok fx ∧
      applyPatchOps registry [PatchOp.patch profile512 1] = ⟨[fx]⟩) ∧
    applyPatchOps registry [PatchOp.patch profile512 2] = ⟨[]⟩ := by
  have hcount : profile512.channel_count = 512 := by
    simp [profile512, FixtureProfile.channel_count]
  refine ⟨univOK_applyPatchOps registry, add_fixture_overflow,
    add_fixture_conflict, ?_, ?_, ?_⟩
  · intro u p a fx e hmk hadd
    simp only [applyPatchOp, hmk, hadd]
  · have hc : (1 : Int) ≤ 512 - (profile512.channel_count : Int) + 1 := by
      rw [hcount]
      norm_num
    cases hmm : mkActiveFixture registry profile512 1 none none with
    | error e =>
      exfalso
      unfold mkActiveFixture at hmm
      rw [if_pos ⟨le_refl 1, hc⟩] at hmm
      cases hmm
    | ok fx =>
      refine ⟨fx, rfl, ?_⟩
      obtain ⟨hstart, _, _, hprof⟩ :=
        mkActiveFixture_start registry profile512 1 none none fx hmm
      have hend : fixtureEnd fx = 512 := by
        unfold fixtureEnd
        rw [hstart, hprof, hcount]
        norm_num
      have hadd : DMXUniverse.add_fixture ⟨[]⟩ fx = Except.ok ⟨[fx]⟩ := by
        unfold DMXUniverse.add_fixture
        rw [if_neg (by rw [hend]; omega)]
        simp only [List.find?_nil, List.nil_append, List.mergeSort_singleton]
      unfold applyPatchOps
      rw [List.foldl_cons, List.foldl_nil]
      simp only [applyPatchOp, hmm, hadd]
  · have hmk2 : mkActiveFixture registry profile512 2 none none
        = Except.error
          "Fixture does not fit in DMX universe at this address." := by
      unfold mkActiveFixture
      rw [if_neg (by intro hcon; rw [hcount] at hcon; omega)]
    unfold applyPatchOps
    rw [List.foldl_cons, List.foldl_nil]
    simp only [applyPatchOp, hmk2]

theorem patch_invariants_witness :
    univOK (applyPatchOps defaultShowLayers
      [PatchOp.patch RGB_PAR 1, PatchOp.patch RGB_PAR 2,
        PatchOp.patch RGB_PAR 4]) ∧
    applyPatchOps defaultShowLayers [PatchOp.patch profile512 2] = ⟨[]⟩ :=
  ⟨(patch_invariants defaultShowLayers).1 _,
    (patch_invariants defaultShowLayers).2.2.2.2.2⟩

theorem specTruncStore_natCast (V : Nat) (h : V ≤ 255) :
    specTruncStore ((V : ℚ)) = (V : Int) := by
  unfold specTruncStore clampInt
  rw [Int.floor_natCast,
    min_eq_left (by exact_mod_cast h), max_eq_right (by positivity)]

/-- Claim C1 (counterexample): a single layer with channel value 203 at
global priority 0.25 has priority-modulated maximum 203/4 = 50.75; the
claimed round-then-clamp store would yield 51, but `compose`'s
`np.clip` followed by `astype(np.uint8)` truncates and stores 50. -/
theorem compose_truncates_cx :
    specModulatedMax [⟨"L", 1/4⟩] [⟨"L", [203, 0, 0]⟩] 0 = 203/4 ∧
    (compose [⟨"L", 1/4⟩] RGB_PAR [⟨"L", [203, 0, 0]⟩]).getD 0 0 = 50 ∧
    specRoundStore (203/4) = 51 ∧
    ¬ ((((compose [⟨"L", 1/4⟩] RGB_PAR [⟨"L", [203, 0, 0]⟩]).getD 0 0 : Nat)
          : Int)
        = specRoundStore
            (specModulatedMax [⟨"L", 1/4⟩] [⟨"L", [203, 0, 0]⟩] 0)) := by
  have h1 : specModulatedMax [⟨"L", (1/4 : ℚ)⟩] [⟨"L", [203, 0, 0]⟩] 0
      = 203/4 := by
    unfold specModulatedMax
    rw [List.foldl_cons, List.foldl_nil]
    unfold composeStepAt
    rw [show get_show_layer [⟨"L", (1/4 : ℚ)⟩] "L" = some ⟨"L", 1/4⟩ from rfl]
    norm_num
  have h3 : specRoundStore (203/4) = 51 := by
    unfold specRoundStore clampInt
    rw [round_eq]
    norm_num [Int.floor_eq_iff]
  have h2 : (compose [⟨"L", (1/4 : ℚ)⟩] RGB_PAR [⟨"L", [203, 0, 0]⟩]).getD 0 0
      = 50 := by
    have hint := compose_getD_int [⟨"L", (1/4 : ℚ)⟩] RGB_PAR
      [⟨"L", [203, 0, 0]⟩] (by decide) 0 (by decide)
    rw [h1] at hint
    have htr : specTruncStore ((203 : ℚ)/4) = 50 := by
      unfold specTruncStore clampInt
      norm_num [Int.floor_eq_iff]
    rw [htr] at hint
    exact_mod_cast hint
  refine ⟨h1, h2, h3, ?_⟩
  rw [h1, h2, h3]
  decide

/-- Claim C1 (amended): the final store back into the byte array is
clamp-then-truncate, not round-then-clamp: every final byte equals
`clamp(floor(x), 0, 255)` of the priority-modulated maximum `x` at that
channel (for non-negative `x` the clip-then-truncate order of the code
coincides with floor-then-clamp). -/
theorem compose_trunc_clamp (registry : List ShowLayer)
    (p : FixtureProfile) (layers : List Layer)
    (hlen : ∀ l ∈ layers, l.dmx_values.length = p.channel_count) :
    (compose registry p layers).length = p.channel_count ∧
    ∀ i < p.channel_count,
      (((compose registry p layers).getD i 0 : Nat) : Int)
        = specTruncStore (specModulatedMax registry layers i) :=
  ⟨compose_length registry p layers hlen,
    fun i hi => compose_getD_int registry p layers hlen i hi⟩

theorem compose_trunc_clamp_witness :
    (compose [⟨"L", 1/4⟩] RGB_PAR [⟨"L", [203, 0, 0]⟩]).length = 3 ∧
    ∀ i < 3,
      (((compose [⟨"L", 1/4⟩] RGB_PAR [⟨"L", [203, 0, 0]⟩]).getD i 0 : Nat)
          : Int)
        = specTruncStore
            (specModulatedMax [⟨"L", 1/4⟩] [⟨"L", [203, 0, 0]⟩] i) :=
  compose_trunc_clamp [⟨"L", 1/4⟩] RGB_PAR [⟨"L", [203, 0, 0]⟩] (by decide)

/-- Claim C6: writing a value V in [0,255] to channel C on layer L — on a
fixture where L is the only layer holding any nonzero channel value and
L's global priority is exactly 1.0 — stores the value, recomposes
synchronously, and reading the fixture's composed value for C yields
exactly V. -/
theorem write_read_roundtrip (registry : List ShowLayer)
    (fx : ActiveFixture) (L C : String) (V : Nat)
    (ch : ChannelDefinition) (sl : ShowLayer)
    (hch : fx.profile.channelMap C = some ch)
    (hoff : ch.relative_offset < fx.profile.channel_count)
    (hlen : ∀ l ∈ fx.layers, l.dmx_values.length = fx.profile.channel_count)
    (hL : ∃ l ∈ fx.layers, l.name = L)
    (hzero : ∀ l ∈ fx.layers, l.name ≠ L →
      l.dmx_values = List.replicate fx.profile.channel_count 0)
    (hsl : get_show_layer registry L = some sl)
    (hpr : sl.priority = 1)
    (hV : V ≤ 255) :
    ∃ fx1, writeChannel registry fx L C (V : Int) = (fx1, SetOutcome.stored)
      ∧ fx1.getattrChannel C = some V := by
  obtain ⟨l0, hl0mem, hl0name⟩ := hL
  have hany : fx.layers.any (fun l => l.name = L) = true :=
    List.any_eq_true.mpr ⟨l0, hl0mem, by simp [hl0name]⟩
  have hVtoNat : ((V : Int)).toNat = V := Int.toNat_natCast V
  refine ⟨{ fx with
      layers := fx.layers.map (fun l =>
        if l.name = L then
          { l with dmx_values :=
              l.dmx_values.set ch.relative_offset ((V : Int)).toNat }
        else l)
      final_dmx_values := compose registry fx.profile
        (fx.layers.map (fun l =>
          if l.name = L then
            { l with dmx_values :=
                l.dmx_values.set ch.relative_offset ((V : Int)).toNat }
          else l)) },
    ?_, ?_⟩
  · unfold writeChannel getOrCreateLayer
    rw [if_pos hany]
    split
    next hnone =>
      rw [hch] at hnone
      cases hnone
    next ch2 hsome =>
      rw [hch] at hsome
      have hc2 : ch = ch2 := Option.some.inj hsome
      subst hc2
      rw [if_pos ⟨Int.natCast_nonneg V, by exact_mod_cast hV⟩]
  · have hgetL : ∀ l ∈ fx.layers, l.name = L →
        ((if l.name = L then
            { l with dmx_values :=
                l.dmx_values.set ch.relative_offset ((V : Int)).toNat }
          else l) : Layer).dmx_values.getD ch.relative_offset 0 = V := by
      intro l hl hn
      rw [if_pos hn, hVtoNat]
      have hofl : ch.relative_offset < l.dmx_values.length := by
        rw [hlen l hl]
        exact hoff
      show (l.dmx_values.set ch.relative_offset V).getD ch.relative_offset 0
        = V
      rw [List.getD_eq_getElem?_getD, List.getElem?_set_self hofl]
      rfl
    have hlen1 : ∀ l1 ∈ fx.layers.map (fun l =>
        if l.name = L then
          { l with dmx_values :=
              l.dmx_values.set ch.relative_offset ((V : Int)).toNat }
        else l),
        l1.dmx_values.length = fx.profile.channel_count := by
      intro l1 hl1
      rcases List.mem_map.mp hl1 with ⟨l, hl, rfl⟩
      by_cases hn : l.name = L
      · rw [if_pos hn]
        show (l.dmx_values.set ch.relative_offset ((V : Int)).toNat).length
          = fx.profile.channel_count
        rw [List.length_set]
        exact hlen l hl
      · rw [if_neg hn]
        exact hlen l hl
    have hsmm : specModulatedMax registry (fx.layers.map (fun l =>
        if l.name = L then
          { l with dmx_values :=
              l.dmx_values.set ch.relative_offset ((V : Int)).toNat }
        else l)) ch.relative_offset = (V : ℚ) := by
      apply le_antisymm
      · apply foldl_composeStepAt_le
        · intro l1 hl1 sl2 hsl2 hp2
          rcases List.mem_map.mp hl1 with ⟨l, hl, rfl⟩
          by_cases hn : l.name = L
          · have hname1 : ((if l.name = L then
                { l with dmx_values :=
                    l.dmx_values.set ch.relative_offset ((V : Int)).toNat }
              else l) : Layer).name = L := by
              rw [if_pos hn]
              exact hn
            rw [hname1, hsl] at hsl2
            have hsl2e := Option.some.inj hsl2
            rw [hgetL l hl hn, ← hsl2e, hpr, mul_one]
          · have hsame : ((if l.name = L then
                { l with dmx_values :=
                    l.dmx_values.set ch.relative_offset ((V : Int)).toNat }
              else l) : Layer) = l := if_neg hn
            rw [hsame]
            rw [hzero l hl hn]
            have : (List.replicate fx.profile.channel_count
                (0 : Nat)).getD ch.relative_offset 0 = 0 := by
              rw [List.getD_eq_getElem?_getD, List.getElem?_replicate]
              simp [hoff]
            rw [this]
            push_cast
            rw [zero_mul]
            positivity
        · positivity
      · have hl1mem := List.mem_map_of_mem (fun l =>
          if l.name = L then
            { l with dmx_values :=
                l.dmx_values.set ch.relative_offset ((V : Int)).toNat }
          else l) hl0mem
        have hname1 : ((if l0.name = L then
            { l0 with dmx_values :=
                l0.dmx_values.set ch.relative_offset ((V : Int)).toNat }
          else l0) : Layer).name = L := by
          rw [if_pos hl0name]
          exact hl0name
        have hge := foldl_composeStepAt_mem_ge registry ch.relative_offset _
          _ sl hl1mem (by rw [hname1]; exact hsl)
          (by rw [hpr]; norm_num) 0
        rw [hgetL l0 hl0mem hl0name, hpr, mul_one] at hge
        exact hge
    have hint := compose_getD_int registry fx.profile _ hlen1
      ch.relative_offset hoff
    rw [hsmm, specTruncStore_natCast V hV] at hint
    simp only [ActiveFixture.getattrChannel]
    rw [hch]
    exact congrArg some (by exact_mod_cast hint)

theorem write_read_roundtrip_witness :
    ∃ fx1, writeChannel defaultShowLayers
        ⟨RGB_PAR, 1,
          [⟨"manual", [0, 0, 0]⟩, ⟨"effects", [0, 0, 0]⟩,
            ⟨"scriptedCues", [0, 0, 0]⟩, ⟨"cues", [0, 0, 0]⟩],
          [0, 0, 0], "RGB PAR", (1/20, 1/20)⟩
        "manual" "red" ((137 : Nat) : Int) = (fx1, SetOutcome.stored) ∧
      fx1.getattrChannel "red" = some 137 :=
  write_read_roundtrip defaultShowLayers
    ⟨RGB_PAR, 1,
      [⟨"manual", [0, 0, 0]⟩, ⟨"effects", [0, 0, 0]⟩,
        ⟨"scriptedCues", [0, 0, 0]⟩, ⟨"cues", [0, 0, 0]⟩],
      [0, 0, 0], "RGB PAR", (1/20, 1/20)⟩
    "manual" "red" 137
    { name := "red", channel_type := ChannelType.RED, relative_offset := 0 }
    ⟨"manual", 1⟩ (by decide) (by decide) (by decide)
    ⟨⟨"manual", [0, 0, 0]⟩, by decide, rfl⟩
    (by decide) rfl rfl (by decide)

/-- Claim C7: composed output is independent of the channel values of any
layer whose global priority is not positive and of any layer whose name is
not in the global registry (such layers are skipped without error): two
layer stacks agreeing everywhere except in such layers' values compose to
identical arrays. -/
theorem compose_noninterference (registry : List ShowLayer)
    (p : FixtureProfile) (l1 l2 : List Layer)
    (h : List.Forall₂ (fun a b => a.name = b.name ∧
      (∀ sl, get_show_layer registry a.name = some sl → sl.priority > 0 →
        a.dmx_values = b.dmx_values)) l1 l2) :
    compose registry p l1 = compose registry p l2 := by
  unfold compose
  suffices hfold : ∀ acc : List ℚ,
      l1.foldl (composeStep registry) acc
        = l2.foldl (composeStep registry) acc by
    rw [hfold]
  induction h with
  | nil => intro acc; rfl
  | @cons a b t1 t2 hab htl ih =>
    intro acc
    rw [List.foldl_cons, List.foldl_cons]
    have hstep : composeStep registry acc a = composeStep registry acc b := by
      unfold composeStep
      rw [← hab.1]
      cases hsl : get_show_layer registry a.name with
      | none => rfl
      | some sl =>
        by_cases hp : sl.priority > 0
        · rw [hab.2 sl hsl hp]
        · simp [hp]
    rw [hstep]
    exact ih _

theorem compose_noninterference_witness :
    compose [⟨"live", 1⟩, ⟨"blackout", 0⟩] RGB_PAR
        [⟨"live", [10, 20, 30]⟩, ⟨"blackout", [255, 255, 255]⟩,
          ⟨"ghost", [9, 9, 9]⟩]
      = compose [⟨"live", 1⟩, ⟨"blackout", 0⟩] RGB_PAR
        [⟨"live", [10, 20, 30]⟩, ⟨"blackout", [0, 0, 0]⟩,
          ⟨"ghost", [1, 2, 3]⟩] :=
  compose_noninterference [⟨"live", 1⟩, ⟨"blackout", 0⟩] RGB_PAR
    [⟨"live", [10, 20, 30]⟩, ⟨"blackout", [255, 255, 255]⟩,
      ⟨"ghost", [9, 9, 9]⟩]
    [⟨"live", [10, 20, 30]⟩, ⟨"blackout", [0, 0, 0]⟩,
      ⟨"ghost", [1, 2, 3]⟩]
    (by
      refine List.Forall₂.cons ⟨rfl, fun sl hsl hp => rfl⟩ ?_
      refine List.Forall₂.cons ⟨rfl, fun sl hsl hp => ?_⟩ ?_
      · rw [show get_show_layer [⟨"live", (1 : ℚ)⟩, ⟨"blackout", 0⟩]
            "blackout" = some ⟨"blackout", 0⟩ from rfl] at hsl
        have := Option.some.inj hsl
        rw [← this] at hp
        norm_num at hp
      refine List.Forall₂.cons ⟨rfl, fun sl hsl hp => ?_⟩ List.Forall₂.nil
      · rw [show get_show_layer [⟨"live", (1 : ℚ)⟩, ⟨"blackout", 0⟩]
            "ghost" = none from rfl] at hsl
        cases hsl)

/-- Claim C9: `render` zero-fills the 512-byte frame and copies each
fixture's cached composed values into
`[start_address-1, start_address-1+channel_count)`; concretely, a
3-channel RGB PAR at address 1 with red=255 on layer "manual" (priority
1.0) renders to `frame[0]=255, frame[1]=0, frame[2]=0, frame[3..511]=0`. -/
theorem render_frame_layout :
    (∀ u : DMXUniverse, u.render.length = 512) ∧
    (∀ u : DMXUniverse,
      (∀ g ∈ u.fixtures, okRange g ∧
        g.final_dmx_values.length = g.profile.channel_count) →
      u.fixtures.Pairwise (fun a b => ¬ overlap a b) →
      (∀ fx ∈ u.fixtures, ∀ j < fx.profile.channel_count,
        u.render.getD ((fx.start_address - 1).toNat + j) 0
          = fx.final_dmx_values.getD j 0) ∧
      (∀ i < 512, (∀ fx ∈ u.fixtures, ¬ covers fx i) →
        u.render.getD i 0 = 0)) ∧
    (∃ fx0 fx1,
      mkActiveFixture defaultShowLayers RGB_PAR 1 none none
        = Except.ok fx0 ∧
      DMXUniverse.add_fixture ⟨[]⟩ fx0 = Except.ok ⟨[fx0]⟩ ∧
      writeChannel defaultShowLayers fx0 "manual" "red" 255
        = (fx1, SetOutcome.stored) ∧
      DMXUniverse.render ⟨[fx1]⟩ = 255 :: 0 :: 0 :: List.replicate 509 0) := by
  refine ⟨?_, ?_, ?_⟩
  · intro u
    unfold DMXUniverse.render
    rw [foldl_renderStep_length, List.length_replicate]
  · intro u hg hpw
    constructor
    · intro fx hfx j hj
      unfold DMXUniverse.render
      exact foldl_renderStep_getD_in u.fixtures (List.replicate 512 0) fx j
        hfx hj (by rw [List.length_replicate]) hg hpw
    · intro i hi hnc
      unfold DMXUniverse.render
      rw [foldl_renderStep_getD_out u.fixtures (List.replicate 512 0) i
        (by rw [List.length_replicate]; exact hi)
        (fun fx hfx => ⟨(hg fx hfx).1.1, (hg fx hfx).2⟩) hnc]
      rw [List.getD_eq_getElem?_getD, List.getElem?_replicate, if_pos hi]
      rfl
  · have hfinal : compose defaultShowLayers RGB_PAR
        [⟨"manual", [255, 0, 0]⟩, ⟨"effects", [0, 0, 0]⟩,
          ⟨"scriptedCues", [0, 0, 0]⟩, ⟨"cues", [0, 0, 0]⟩]
        = [255, 0, 0] := by
      have e1 : composeStep defaultShowLayers [(0 : ℚ), 0, 0]
          ⟨"manual", [255, 0, 0]⟩ = [(255 : ℚ), 0, 0] := by
        unfold composeStep
        rw [show get_show_layer defaultShowLayers "manual"
            = some ⟨"manual", 1⟩ from rfl]
        norm_num
      have ez : ∀ nm : String,
          get_show_layer defaultShowLayers nm = some ⟨nm, 1⟩ →
          composeStep defaultShowLayers [(255 : ℚ), 0, 0] ⟨nm, [0, 0, 0]⟩
            = [(255 : ℚ), 0, 0] := by
        intro nm hnm
        unfold composeStep
        rw [hnm]
        norm_num
      unfold compose
      rw [show List.replicate RGB_PAR.channel_count (0 : ℚ)
          = [(0 : ℚ), 0, 0] from rfl]
      rw [List.foldl_cons, e1, List.foldl_cons, ez "effects" rfl,
        List.foldl_cons, ez "scriptedCues" rfl, List.foldl_cons,
        ez "cues" rfl, List.foldl_nil]
      rw [show ((255 : ℚ)) = ((255 : Nat) : ℚ) by norm_num,
        show ((0 : ℚ)) = ((0 : Nat) : ℚ) by norm_num]
      rw [List.map_cons, List.map_cons, List.map_cons, List.map_nil,
        clipStore_natCast 255 (by norm_num),
        clipStore_natCast 0 (by norm_num)]
    refine ⟨⟨RGB_PAR, 1,
        [⟨"manual", [0, 0, 0]⟩, ⟨"effects", [0, 0, 0]⟩,
          ⟨"scriptedCues", [0, 0, 0]⟩, ⟨"cues", [0, 0, 0]⟩],
        compose defaultShowLayers RGB_PAR
          [⟨"manual", [0, 0, 0]⟩, ⟨"effects", [0, 0, 0]⟩,
            ⟨"scriptedCues", [0, 0, 0]⟩, ⟨"cues", [0, 0, 0]⟩],
        "RGB PAR", (1/20, 1/20)⟩,
      ⟨RGB_PAR, 1,
        [⟨"manual", [255, 0, 0]⟩, ⟨"effects", [0, 0, 0]⟩,
          ⟨"scriptedCues", [0, 0, 0]⟩, ⟨"cues", [0, 0, 0]⟩],
        compose defaultShowLayers RGB_PAR
          [⟨"manual", [255, 0, 0]⟩, ⟨"effects", [0, 0, 0]⟩,
            ⟨"scriptedCues", [0, 0, 0]⟩, ⟨"cues", [0, 0, 0]⟩],
        "RGB PAR", (1/20, 1/20)⟩, ?_, ?_, ?_, ?_⟩
    · unfold mkActiveFixture
      rw [if_pos (by decide)]
      rfl
    · unfold DMXUniverse.add_fixture
      rw [if_neg (by decide)]
      simp only [List.find?_nil, List.nil_append, List.mergeSort_singleton]
    · have hred : RGB_PAR.channelMap "red"
          = some ⟨"red", ChannelType.RED, 0, 0, none⟩ := rfl
      unfold writeChannel getOrCreateLayer
      rw [if_pos (by decide)]
      split
      next hnone =>
        rw [hred] at hnone
        cases hnone
      next ch2 hsome =>
        rw [hred] at hsome
        have hc2 : (⟨"red", ChannelType.RED, 0, 0, none⟩ : ChannelDefinition)
            = ch2 := Option.some.inj hsome
        subst hc2
        rw [if_pos (by decide)]
        rfl
    · have hproj : (⟨RGB_PAR, 1,
          [⟨"manual", [255, 0, 0]⟩, ⟨"effects", [0, 0, 0]⟩,
            ⟨"scriptedCues", [0, 0, 0]⟩, ⟨"cues", [0, 0, 0]⟩],
          compose defaultShowLayers RGB_PAR
            [⟨"manual", [255, 0, 0]⟩, ⟨"effects", [0, 0, 0]⟩,
              ⟨"scriptedCues", [0, 0, 0]⟩, ⟨"cues", [0, 0, 0]⟩],
          "RGB PAR", (1/20, 1/20)⟩ : ActiveFixture).final_dmx_values
          = [255, 0, 0] := hfinal
      unfold DMXUniverse.render
      rw [List.foldl_cons, List.foldl_nil]
      unfold renderStep
      rw [hproj, show (((1 : Int)) - 1).toNat = 0 from rfl,
        writeSlice_replicate 512 0 [255, 0, 0] (by norm_num)]
      rfl

theorem set_eq_self_of_getElem? {α : Type} (l : List α) (i : Nat) (a : α)
    (h : l[i]? = some a) : l.set i a = l := by
  apply List.ext_getElem?
  intro m
  by_cases hm : m = i
  · subst hm
    rw [List.getElem?_set_self (List.getElem?_eq_some_iff.mp h).1, h]
  · rw [List.getElem?_set_ne (by omega)]

/-- Claim C5: accessing a fixture's layer under a name with no global
`ShowLayer` (in a dangling-free state) returns a fresh zero-valued layer,
appends exactly one global `ShowLayer` of that name at default priority
1.0, pushes a zero-valued layer of that name onto every patched fixture
in every universe, and any repeated access leaves the registry unchanged
(never a duplicate entry). -/
theorem get_layer_fanout (s : AppState) (ui fi : Nat) (n : String)
    (fx : ActiveFixture)
    (hfx : s.fixtureAt ui fi = some fx)
    (hglobal : get_show_layer s.layers n = none)
    (hwf : s.noDangling) :
    (s.getLayerAt ui fi n).1 = some (Layer.mk0 n fx.profile) ∧
    (s.getLayerAt ui fi n).2.layers = s.layers ++ [⟨n, 1⟩] ∧
    (s.getLayerAt ui fi n).2.layers.countP (fun sl => sl.name = n) = 1 ∧
    (s.getLayerAt ui fi n).2.universes
      = s.universes.map (fun u => ⟨u.fixtures.map (fun g =>
          { g with layers := g.layers ++ [Layer.mk0 n g.profile] })⟩) ∧
    (∀ ui2 fi2, ((s.getLayerAt ui fi n).2.getLayerAt ui2 fi2 n).2.layers
        = (s.getLayerAt ui fi n).2.layers) := by
  have hfx' : (s.universes.get? ui).bind (fun u => u.fixtures.get? fi)
      = some fx := hfx
  obtain ⟨u0, hu0, hfxg⟩ : ∃ u0, s.universes.get? ui = some u0 ∧
      u0.fixtures.get? fi = some fx := by
    cases hu : s.universes.get? ui with
    | none => rw [hu] at hfx'; cases hfx'
    | some u0 => rw [hu] at hfx'; exact ⟨u0, rfl, hfx'⟩
  have hu0mem : u0 ∈ s.universes := by
    rw [List.get?_eq_getElem?] at hu0
    exact List.getElem?_mem hu0
  have hfxmem : fx ∈ u0.fixtures := by
    rw [List.get?_eq_getElem?] at hfxg
    exact List.getElem?_mem hfxg
  have hnon : ∀ (u : DMXUniverse), u ∈ s.universes → ∀ g ∈ u.fixtures,
      g.layers.any (fun l => l.name = n) = false := by
    intro u hu g hg
    rw [List.any_eq_false]
    intro l hl
    simp only [decide_eq_true_eq]
    intro hname
    have hws := hwf u hu g hg l hl
    rw [hname, hglobal] at hws
    simp at hws
  have hany : fx.layers.any (fun l => l.name = n) = false :=
    hnon u0 hu0mem fx hfxmem
  have hanyfx1 : (fx.layers ++ [Layer.mk0 n fx.profile]).any
      (fun l => l.name = n) = true := by
    rw [List.any_append]
    simp [Layer.mk0]
  have hfound : get_show_layer (s.layers ++ [⟨n, 1⟩]) n = some ⟨n, 1⟩ := by
    unfold get_show_layer at hglobal ⊢
    rw [List.find?_append, hglobal]
    simp
  have hres : s.getLayerAt ui fi n
      = (some (Layer.mk0 n fx.profile),
         ⟨s.layers ++ [⟨n, 1⟩],
          s.universes.map (fun u => ⟨u.fixtures.map (fun g =>
            { g with layers := g.layers ++ [Layer.mk0 n g.profile] })⟩)⟩) := by
    unfold AppState.getLayerAt
    split
    next hnone =>
      rw [hfx'] at hnone
      cases hnone
    next fx2 hsome =>
      rw [hfx'] at hsome
      have hfx2 : fx = fx2 := Option.some.inj hsome
      subst hfx2
      rw [if_neg (by simp [hany])]
      unfold AppState.add_show_layer
      dsimp only []
      rw [if_neg (by simp [hglobal])]
      refine congrArg (Prod.mk _) ?_
      refine congrArg₂ AppState.mk rfl ?_
      have hgetD : (s.universes.getD ui ⟨[]⟩) = u0 := by
        rw [List.getD_eq_getElem?_getD, ← List.get?_eq_getElem?, hu0]
        rfl
      rw [hgetD, List.map_set, List.map_set]
      rw [if_pos hanyfx1]
      have hfixcongr : u0.fixtures.map (fun g =>
          if (g.layers.any fun l => l.name = n) = true then g
          else { g with layers := g.layers ++ [Layer.mk0 n g.profile] })
          = u0.fixtures.map (fun g =>
            { g with layers := g.layers ++ [Layer.mk0 n g.profile] }) :=
        List.map_congr_left (fun g hg => by
          rw [if_neg (by simp [hnon u0 hu0mem g hg])])
      rw [hfixcongr]
      have hproj1 : (u0.fixtures.map (fun g =>
          { g with layers := g.layers ++ [Layer.mk0 n g.profile] }))[fi]?
          = some ({ fx with
              layers := fx.layers ++ [Layer.mk0 n fx.profile] }) := by
        rw [List.getElem?_map, ← List.get?_eq_getElem?, hfxg]
        rfl
      rw [set_eq_self_of_getElem? _ fi _ hproj1]
      have hmapu : s.universes.map (fun u =>
          (⟨u.fixtures.map (fun g =>
            if (g.layers.any fun l => l.name = n) = true then g
            else { g with layers := g.layers ++ [Layer.mk0 n g.profile] })⟩
              : DMXUniverse))
          = s.universes.map (fun u =>
            ⟨u.fixtures.map (fun g =>
              { g with layers := g.layers ++ [Layer.mk0 n g.profile] })⟩) :=
        List.map_congr_left (fun u hu => congrArg DMXUniverse.mk
          (List.map_congr_left (fun g hg => by
            rw [if_neg (by simp [hnon u hu g hg])])))
      rw [hmapu]
      have hproj2 : (s.universes.map (fun u =>
          (⟨u.fixtures.map (fun g =>
            { g with layers := g.layers ++ [Layer.mk0 n g.profile] })⟩
              : DMXUniverse)))[ui]?
          = some ⟨u0.fixtures.map (fun g =>
              { g with layers := g.layers ++ [Layer.mk0 n g.profile] })⟩ := by
        rw [List.getElem?_map, ← List.get?_eq_getElem?, hu0]
        rfl
      rw [set_eq_self_of_getElem? _ ui _ hproj2]
  rw [hres]
  refine ⟨rfl, rfl, ?_, rfl, ?_⟩
  · rw [List.countP_append]
    have h0 : s.layers.countP (fun sl => sl.name = n) = 0 :=
      List.countP_eq_zero.mpr (fun sl hsl => by
        simp only [decide_eq_true_eq]
        intro he
        unfold get_show_layer at hglobal
        have hne := List.find?_eq_none.mp hglobal sl hsl
        simp [he] at hne)
    rw [h0]
    simp
  · intro ui2 fi2
    unfold AppState.getLayerAt
    split
    · rfl
    next g hsome =>
      split
      · rfl
      next hgany =>
        unfold AppState.add_show_layer
        dsimp only []
        rw [if_pos (by rw [hfound]; rfl)]

theorem compose_two_layer_priority_witness :
    compose [⟨"A", 1⟩, ⟨"B", 1/2⟩] RGB_PAR
        [⟨"A", List.replicate RGB_PAR.channel_count 100⟩,
         ⟨"B", List.replicate RGB_PAR.channel_count 200⟩]
      = List.replicate RGB_PAR.channel_count 100 ∧
    compose (setShowLayerPriority [⟨"A", 1⟩, ⟨"B", 1/2⟩] "B" 1) RGB_PAR
        [⟨"A", List.replicate RGB_PAR.channel_count 100⟩,
         ⟨"B", List.replicate RGB_PAR.channel_count 200⟩]
      = List.replicate RGB_PAR.channel_count 200 :=
  compose_two_layer_priority RGB_PAR

theorem render_frame_layout_witness :
    (∀ fx ∈ ((⟨[⟨RGB_PAR, 1, [], [7, 8, 9], "RGB PAR", (1/20, 1/20)⟩]⟩ :
        DMXUniverse)).fixtures, ∀ j < fx.profile.channel_count,
      (⟨[⟨RGB_PAR, 1, [], [7, 8, 9], "RGB PAR", (1/20, 1/20)⟩]⟩ :
        DMXUniverse).render.getD ((fx.start_address - 1).toNat + j) 0
        = fx.final_dmx_values.getD j 0) ∧
    (∀ i < 512, (∀ fx ∈ ((⟨[⟨RGB_PAR, 1, [], [7, 8, 9], "RGB PAR",
        (1/20, 1/20)⟩]⟩ : DMXUniverse)).fixtures, ¬ covers fx i) →
      (⟨[⟨RGB_PAR, 1, [], [7, 8, 9], "RGB PAR", (1/20, 1/20)⟩]⟩ :
        DMXUniverse).render.getD i 0 = 0) :=
  render_frame_layout.2.1
    ⟨[⟨RGB_PAR, 1, [], [7, 8, 9], "RGB PAR", (1/20, 1/20)⟩]⟩
    (by
      intro g hg
      rcases List.mem_singleton.mp hg with rfl
      exact ⟨⟨by decide, by decide⟩, by decide⟩)
    (List.pairwise_cons.mpr
      ⟨fun b hb => absurd hb (List.not_mem_nil b), List.Pairwise.nil⟩)

theorem get_layer_fanout_witness :
    ((⟨[⟨"manual", 1⟩],
        [⟨[⟨RGB_PAR, 1, [⟨"manual", [0, 0, 0]⟩], [0, 0, 0], "RGB PAR",
          (1/20, 1/20)⟩]⟩]⟩ : AppState).getLayerAt 0 0 "chase").1
      = some (Layer.mk0 "chase" RGB_PAR) ∧
    ((⟨[⟨"manual", 1⟩],
        [⟨[⟨RGB_PAR, 1, [⟨"manual", [0, 0, 0]⟩], [0, 0, 0], "RGB PAR",
          (1/20, 1/20)⟩]⟩]⟩ : AppState).getLayerAt 0 0 "chase").2.layers
      = [⟨"manual", 1⟩] ++ [⟨"chase", 1⟩] ∧
    ((⟨[⟨"manual", 1⟩],
        [⟨[⟨RGB_PAR, 1, [⟨"manual", [0, 0, 0]⟩], [0, 0, 0], "RGB PAR",
          (1/20, 1/20)⟩]⟩]⟩ : AppState).getLayerAt 0 0
            "chase").2.layers.countP (fun sl => sl.name = "chase") = 1 := by
  have h := get_layer_fanout
    ⟨[⟨"manual", 1⟩], [⟨[⟨RGB_PAR, 1, [⟨"manual", [0, 0, 0]⟩], [0, 0, 0],
      "RGB PAR", (1/20, 1/20)⟩]⟩]⟩ 0 0 "chase"
    ⟨RGB_PAR, 1, [⟨"manual", [0, 0, 0]⟩], [0, 0, 0], "RGB PAR", (1/20, 1/20)⟩
    rfl rfl
    (by
      intro u hu g hg l hl
      rcases List.mem_singleton.mp hu with rfl
      rcases List.mem_singleton.mp hg with rfl
      rcases List.mem_singleton.mp hl with rfl
      decide)
  exact ⟨h.1, h.2.1, h.2.2.1⟩

end Imlight
